import Mathlib

/-
  Verification of the Manifold mint-detection adapter
  (packages/indexer/src/orderbook/mints/calldata/detector/manifold.ts).

  The on-chain reads, the off-chain metadata service and the status resolver
  are modelled as an explicit environment (`Chain`); each fallible call is an
  `Option`-valued field (`none` models a revert / decode error / HTTP failure).
  Caught exceptions become local `Option` fall-throughs; uncaught exceptions
  propagate as `Except.error`.
-/

namespace Manifold

/-- Lower-cases a string, modelling JavaScript `String.prototype.toLowerCase`
on the ASCII addresses handled by the adapter. -/
def toLowerStr (s : String) : String :=
  String.mk (s.data.map Char.toLower)

/-- Models JavaScript `String.prototype.startsWith`, checking that `p` is a
prefix of `s`. -/
def strStartsWith (s p : String) : Bool :=
  p.data.isPrefixOf s.data

/-- The ethers `HashZero` constant (32 zero bytes, hex-encoded). -/
def hashZero : String :=
  "0x0000000000000000000000000000000000000000000000000000000000000000"

/-- Renders an optional string the way a JavaScript template literal renders a
possibly-`undefined` value. -/
def optStr : Option String → String
  | none => "undefined"
  | some s => s

/-- Modelled from the spec: `toSafeTimestamp` (helpers module, not part of the
extracted sources). Per the spec, a non-zero on-chain date normalizes to the
identical numeric timestamp; the zero check happens at the call sites. -/
def toSafeTimestamp (v : Nat) : Nat :=
  v

/-- A literal ABI value fixed at detection time (`abiValue` in the template
params): either a decimal string (instance id / claim index) or an array. -/
inductive AbiValue where
  | str : String → AbiValue
  | arr : List String → AbiValue
deriving DecidableEq

/-- One parameter slot of a calldata template. -/
structure TxParam where
  kind : String
  abiType : String
  abiValue : Option AbiValue
deriving DecidableEq

/-- The `data` part of a calldata template: 4-byte selector plus param slots. -/
structure TxData where
  signature : String
  params : List TxParam
deriving DecidableEq

/-- A calldata template: target address plus call data description. -/
structure TxTemplate where
  toAddr : String
  data : TxData
deriving DecidableEq

/-- Stage-specific auxiliary info (the `Info` type of the adapter). -/
structure Info where
  merkleTreeId : Option String
deriving DecidableEq

/-- The `details` field of a collection mint. -/
structure MintDetails where
  tx : TxTemplate
  info : Option Info
deriving DecidableEq

/-- The canonical `CollectionMint` record as constructed by the adapter. -/
structure CollectionMint where
  collection : String
  contract : String
  stage : String
  kind : String
  status : String
  statusReason : Option String
  standard : String
  details : MintDetails
  currency : String
  price : String
  tokenId : Option String
  maxMintsPerWallet : Option String
  maxSupply : Option String
  startTime : Option Nat
  endTime : Option Nat
  allowlistId : Option String
deriving DecidableEq

/-- The claim struct returned by `getClaimForToken` (ERC1155 lazy claim). -/
structure Claim1155 where
  total : Nat
  totalMax : Nat
  walletMax : Nat
  startDate : Nat
  endDate : Nat
  storageProtocol : Nat
  merkleRoot : String
  location : String
  tokenId : Nat
  cost : Nat
  paymentReceiver : String
  erc20 : String
deriving DecidableEq

/-- The claim struct returned by the older `getClaim` ABI shape
(`IERC721LazyPayableClaimV1`, no fee / ERC20 fields). -/
structure ClaimV1 where
  total : Nat
  totalMax : Nat
  walletMax : Nat
  startDate : Nat
  endDate : Nat
  storageProtocol : Nat
  identical : Bool
  merkleRoot : String
  location : String
  cost : Nat
  paymentReceiver : String
deriving DecidableEq

/-- The claim struct returned by the newer `getClaim` ABI shape
(`IERC721LazyPayableClaimV2`, with an ERC20 field). -/
structure ClaimV2 where
  total : Nat
  totalMax : Nat
  walletMax : Nat
  startDate : Nat
  endDate : Nat
  storageProtocol : Nat
  identical : Bool
  merkleRoot : String
  location : String
  cost : Nat
  paymentReceiver : String
  erc20 : String
deriving DecidableEq

/-- The local `claimConfig` object built in the collection-wide (721) path. -/
structure ClaimConfig where
  total : Nat
  totalMax : Nat
  walletMax : Nat
  startDate : Nat
  endDate : Nat
  storageProtocol : Nat
  identical : Bool
  merkleRoot : String
  location : String
  cost : Nat
  paymentReceiver : String
  erc20 : String
  mintFee : Nat
  mintFeeMerkle : Nat
deriving DecidableEq

/-- A transaction as consumed by `extractByTx`: target address and input data
(hex string; the leading 4 bytes are the selector). -/
structure Transaction where
  toAddr : String
  data : String
deriving DecidableEq

/-- The environment of the adapter: on-chain reads, off-chain HTTP services
and the external status resolver. Each `Option` result models the outcome of
one call (`none` = revert / decode error / HTTP failure); arguments are, in
order, the extension address, the collection, and the token id / claim index
where applicable. -/
structure Chain where
  getExtensions : Option (List String)
  getClaimForToken : String → String → String → Option (Nat × Claim1155)
  mintFee : String → Option Nat
  mintFeeMerkle : String → Option Nat
  getClaimV1 : String → String → String → Option ClaimV1
  getClaimV2 : String → String → Option String → Option ClaimV2
  fetchMetadata : String → Option String
  ethAddress : String
  getStatus : CollectionMint → String × Option String
  decodeMint : String → Option String
  decodeMintBatch : String → Option String

/-- The `public` record emitted from a per-token (`getClaimForToken`) claim. -/
def record1155Public (env : Chain) (collection tokenId extension instanceId : String)
    (claim : Claim1155) (fee : Nat) : CollectionMint :=
  { collection := collection
    contract := collection
    stage := "claim-" ++ toLowerStr extension ++ "-" ++ instanceId
    kind := "public"
    status := "open"
    statusReason := none
    standard := "manifold"
    details :=
      { tx :=
          { toAddr := toLowerStr extension
            data :=
              { signature := "0x26c858a4"
                params :=
                  [ { kind := "contract", abiType := "address", abiValue := none },
                    { kind := "unknown", abiType := "uint256",
                      abiValue := some (AbiValue.str instanceId) },
                    { kind := "quantity", abiType := "uint16", abiValue := none },
                    { kind := "unknown", abiType := "uint32[]",
                      abiValue := some (AbiValue.arr []) },
                    { kind := "unknown", abiType := "bytes32[][]",
                      abiValue := some (AbiValue.arr []) },
                    { kind := "recipient", abiType := "address", abiValue := none } ] } }
        info := none }
    currency := env.ethAddress
    price := toString (claim.cost + fee)
    tokenId := some tokenId
    maxMintsPerWallet := if 0 < claim.walletMax then some (toString claim.walletMax) else none
    maxSupply := if 0 < claim.totalMax then some (toString claim.totalMax) else none
    startTime := if claim.startDate ≠ 0 then some (toSafeTimestamp claim.startDate) else none
    endTime := if claim.endDate ≠ 0 then some (toSafeTimestamp claim.endDate) else none
    allowlistId := none }

/-- The `allowlist` record emitted from a per-token (`getClaimForToken`)
claim. -/
def record1155Allowlist (env : Chain) (collection tokenId extension instanceId : String)
    (claim : Claim1155) (fee : Nat) (merkleTreeId : String) : CollectionMint :=
  { collection := collection
    contract := collection
    stage := "claim-" ++ toLowerStr extension ++ "-" ++ instanceId
    kind := "allowlist"
    status := "open"
    statusReason := none
    standard := "manifold"
    details :=
      { tx :=
          { toAddr := toLowerStr extension
            data :=
              { signature := "0x26c858a4"
                params :=
                  [ { kind := "contract", abiType := "address", abiValue := none },
                    { kind := "unknown", abiType := "uint256",
                      abiValue := some (AbiValue.str instanceId) },
                    { kind := "quantity", abiType := "uint16", abiValue := none },
                    { kind := "allowlist", abiType := "uint32[]", abiValue := none },
                    { kind := "allowlist", abiType := "bytes32[][]", abiValue := none },
                    { kind := "recipient", abiType := "address", abiValue := none } ] } }
        info := some { merkleTreeId := some merkleTreeId } }
    currency := env.ethAddress
    price := toString (claim.cost + fee)
    tokenId := some tokenId
    maxMintsPerWallet := if 0 < claim.walletMax then some (toString claim.walletMax) else none
    maxSupply := if 0 < claim.totalMax then some (toString claim.totalMax) else none
    startTime := if claim.startDate ≠ 0 then some (toSafeTimestamp claim.startDate) else none
    endTime := if claim.endDate ≠ 0 then some (toSafeTimestamp claim.endDate) else none
    allowlistId := some claim.merkleRoot }

/-- The `public` record emitted from a collection-wide (`getClaim`) claim
configuration. Note that it carries the caller's `tokenId` argument. -/
def record721Public (env : Chain) (collection tokenId : String) (claimIndex : Option String)
    (extension : String) (cfg : ClaimConfig) : CollectionMint :=
  { collection := collection
    contract := collection
    stage := "claim-" ++ toLowerStr extension ++ "-" ++ optStr claimIndex
    kind := "public"
    status := "open"
    statusReason := none
    standard := "manifold"
    details :=
      { tx :=
          { toAddr := toLowerStr extension
            data :=
              { signature := "0x26c858a4"
                params :=
                  [ { kind := "contract", abiType := "address", abiValue := none },
                    { kind := "unknown", abiType := "uint256",
                      abiValue := claimIndex.map AbiValue.str },
                    { kind := "quantity", abiType := "uint16", abiValue := none },
                    { kind := "unknown", abiType := "uint32[]",
                      abiValue := some (AbiValue.arr []) },
                    { kind := "unknown", abiType := "bytes32[][]",
                      abiValue := some (AbiValue.arr []) },
                    { kind := "recipient", abiType := "address", abiValue := none } ] } }
        info := none }
    currency := env.ethAddress
    price := toString (cfg.cost + cfg.mintFee)
    tokenId := some tokenId
    maxMintsPerWallet := if 0 < cfg.walletMax then some (toString cfg.walletMax) else none
    maxSupply := if 0 < cfg.totalMax then some (toString cfg.totalMax) else none
    startTime := if cfg.startDate ≠ 0 then some (toSafeTimestamp cfg.startDate) else none
    endTime := if cfg.endDate ≠ 0 then some (toSafeTimestamp cfg.endDate) else none
    allowlistId := none }

/-- The `allowlist` record emitted from a collection-wide (`getClaim`) claim
configuration. It carries no `tokenId`. -/
def record721Allowlist (env : Chain) (collection : String) (claimIndex : Option String)
    (extension : String) (cfg : ClaimConfig) (merkleTreeId : String) : CollectionMint :=
  { collection := collection
    contract := collection
    stage := "claim-" ++ toLowerStr extension ++ "-" ++ optStr claimIndex
    kind := "allowlist"
    status := "open"
    statusReason := none
    standard := "manifold"
    details :=
      { tx :=
          { toAddr := toLowerStr extension
            data :=
              { signature := "0x26c858a4"
                params :=
                  [ { kind := "contract", abiType := "address", abiValue := none },
                    { kind := "unknown", abiType := "uint256",
                      abiValue := claimIndex.map AbiValue.str },
                    { kind := "quantity", abiType := "uint16", abiValue := none },
                    { kind := "allowlist", abiType := "uint32[]", abiValue := none },
                    { kind := "allowlist", abiType := "bytes32[][]", abiValue := none },
                    { kind := "recipient", abiType := "address", abiValue := none } ] } }
        info := some { merkleTreeId := some merkleTreeId } }
    currency := env.ethAddress
    price := toString (cfg.cost + cfg.mintFeeMerkle)
    tokenId := none
    maxMintsPerWallet := if 0 < cfg.walletMax then some (toString cfg.walletMax) else none
    maxSupply := if 0 < cfg.totalMax then some (toString cfg.totalMax) else none
    startTime := if cfg.startDate ≠ 0 then some (toSafeTimestamp cfg.startDate) else none
    endTime := if cfg.endDate ≠ 0 then some (toSafeTimestamp cfg.endDate) else none
    allowlistId := some cfg.merkleRoot }

/-- The ERC1155 branch of the per-extension fallback ladder (the first `try`
block): the `getClaimForToken` read, the instance-id and ERC20 checks, the
fee read and, for allowlist sales, the metadata fetch all sit inside the same
`try`, so any failure falls through (`none`) to the collection-wide branch. -/
def tryERC1155 (env : Chain) (collection tokenId extension : String) :
    Option (List CollectionMint) :=
  match env.getClaimForToken extension collection tokenId with
  | none => none
  | some (iid, claim) =>
    let instanceId := toString iid
    if instanceId ≠ "0" ∧ toLowerStr claim.erc20 = env.ethAddress then
      if claim.merkleRoot = hashZero then
        match env.mintFee extension with
        | none => none
        | some fee => some [record1155Public env collection tokenId extension instanceId claim fee]
      else
        match env.mintFeeMerkle extension with
        | none => none
        | some fee =>
          match env.fetchMetadata instanceId with
          | none => none
          | some mid =>
            some [record1155Allowlist env collection tokenId extension instanceId claim fee mid]
    else none

/-- Builds the `claimConfig` object from a V1 `getClaim` result: the missing
ERC20 field defaults to the native-asset sentinel and both fees to zero. -/
def configOfV1 (env : Chain) (c1 : ClaimV1) : ClaimConfig :=
  { total := c1.total
    totalMax := c1.totalMax
    walletMax := c1.walletMax
    startDate := c1.startDate
    endDate := c1.endDate
    storageProtocol := c1.storageProtocol
    identical := c1.identical
    merkleRoot := c1.merkleRoot
    location := c1.location
    cost := c1.cost
    paymentReceiver := c1.paymentReceiver
    erc20 := env.ethAddress
    mintFee := 0
    mintFeeMerkle := 0 }

/-- Builds the `claimConfig` object from a V2 `getClaim` result together with
the two fee constants fetched alongside it. -/
def configOfV2 (c2 : ClaimV2) (fee feeMerkle : Nat) : ClaimConfig :=
  { total := c2.total
    totalMax := c2.totalMax
    walletMax := c2.walletMax
    startDate := c2.startDate
    endDate := c2.endDate
    storageProtocol := c2.storageProtocol
    identical := c2.identical
    merkleRoot := c2.merkleRoot
    location := c2.location
    cost := c2.cost
    paymentReceiver := c2.paymentReceiver
    erc20 := c2.erc20
    mintFee := fee
    mintFeeMerkle := feeMerkle }

/-- The V1 attempt of the collection-wide branch: guarded by the truthiness of
the `claimIndex` hint (absent or empty means the attempt is skipped). -/
def v1Attempt (env : Chain) (collection : String) (claimIndex : Option String)
    (extension : String) : Option ClaimConfig :=
  match claimIndex with
  | none => none
  | some i =>
    if i = "" then none
    else (env.getClaimV1 extension collection i).map (configOfV1 env)

/-- The V2 attempt of the collection-wide branch: the `getClaim` read and the
two fee reads are awaited jointly, so the attempt succeeds only if all three
succeed. -/
def v2Attempt (env : Chain) (collection : String) (claimIndex : Option String)
    (extension : String) : Option ClaimConfig :=
  match env.getClaimV2 extension collection claimIndex,
        env.mintFee extension, env.mintFeeMerkle extension with
  | some c2, some fee, some feeMerkle => some (configOfV2 c2 fee feeMerkle)
  | _, _, _ => none

/-- The resulting `claimConfig` after both attempts: the V1 result is written
first and the V2 result overwrites it when the V2 attempt succeeds. -/
def claimConfigFor (env : Chain) (collection : String) (claimIndex : Option String)
    (extension : String) : Option ClaimConfig :=
  match v2Attempt env collection claimIndex extension with
  | some cfg => some cfg
  | none => v1Attempt env collection claimIndex extension

/-- One full per-extension ladder: `none` means fall through to the next
extension; `some r` means the loop body returns with `r` (which is an
`Except.error` exactly when the uncaught metadata fetch of the collection-wide
allowlist branch fails). -/
def extractExt (env : Chain) (collection tokenId : String) (claimIndex : Option String)
    (extension : String) : Option (Except String (List CollectionMint)) :=
  match tryERC1155 env collection tokenId extension with
  | some recs => some (Except.ok recs)
  | none =>
    match claimConfigFor env collection claimIndex extension with
    | none => none
    | some cfg =>
      if cfg.merkleRoot = hashZero then
        some (Except.ok [record721Public env collection tokenId claimIndex extension cfg])
      else
        match env.fetchMetadata (optStr claimIndex) with
        | some mid =>
          some (Except.ok [record721Allowlist env collection claimIndex extension cfg mid])
        | none => some (Except.error "fetchMetadata failed")

/-- The trailing status-resolution pass over the `results` accumulator. -/
def applyStatus (env : Chain) (l : List CollectionMint) : List CollectionMint :=
  l.map (fun cm => { cm with status := (env.getStatus cm).1, statusReason := (env.getStatus cm).2 })

/-- The extension loop of `extractByCollection`: runs each extension's ladder
in order, returning from within the first one that produces a result; the
`results` accumulator is never pushed to, so the fall-through path returns the
status-resolved empty list. -/
def extractLoop (env : Chain) (collection tokenId : String) (claimIndex : Option String) :
    List String → Except String (List CollectionMint)
  | [] => Except.ok (applyStatus env [])
  | extension :: rest =>
    match extractExt env collection tokenId claimIndex extension with
    | some r => r
    | none => extractLoop env collection tokenId claimIndex rest

/-- The extension list scanned by `extractByCollection`: the singleton hint if
one was supplied, otherwise the on-chain `getExtensions` enumeration (whose
failure aborts the call). -/
def extensionsOf (env : Chain) : Option String → Option (List String)
  | some e => some [e]
  | none => env.getExtensions

/-- The adapter entry point `extractByCollection`. -/
def extractByCollection (env : Chain) (collection tokenId : String)
    (extension claimIndex : Option String) : Except String (List CollectionMint) :=
  match extensionsOf env extension with
  | none => Except.error "getExtensions failed"
  | some exts => extractLoop env collection tokenId claimIndex exts

/-- The adapter entry point `extractByTx`: recognizes the `mint` and
`mintBatch` selectors by string prefix, decodes the instance id (decode
failure swallowed), and delegates to `extractByCollection` with the
transaction target as extension hint and the decoded id as claim-index hint;
any other selector yields an empty result. -/
def extractByTx (env : Chain) (collection tokenId : String) (tx : Transaction) :
    Except String (List CollectionMint) :=
  if strStartsWith tx.data "0xfa2b068f" ∨ strStartsWith tx.data "0x26c858a4" then
    let instanceId :=
      if strStartsWith tx.data "0xfa2b068f" then env.decodeMint tx.data
      else env.decodeMintBatch tx.data
    extractByCollection env collection tokenId (some tx.toAddr) instanceId
  else Except.ok []

/-- The triple comparison used by the refresh loop to match a freshly
extracted record against a stored one. -/
def mintMatches (latest existing : CollectionMint) : Bool :=
  latest.collection == existing.collection &&
  latest.stage == existing.stage &&
  latest.tokenId == existing.tokenId

/-- Modelled from the spec: `getCollectionMints` (persistence layer, not part
of the extracted sources) returns all stored records for the collection
restricted to this standard. The store is a list of records ordered by first
insertion. -/
def getCollectionMints (store : List CollectionMint) (collection : String) :
    List CollectionMint :=
  store.filter (fun r => r.collection == collection && r.standard == "manifold")

/-- Modelled from the spec: `simulateAndUpsertCollectionMint` (persistence and
simulation layer, not part of the extracted sources) upserts a record by its
`(collection, stage, tokenId)` natural key; the simulation step is modelled as
confirming, so the record is stored as given. -/
def simulateAndUpsertCollectionMint (store : List CollectionMint) (r : CollectionMint) :
    List CollectionMint :=
  if store.any (fun e => mintMatches r e) then
    store.map (fun e => if mintMatches r e then r else e)
  else store ++ [r]

/-- The close pass of one refresh iteration: every record of the `existing`
snapshot whose triple is not matched by the `latest` extraction result is
rewritten with status `closed`. -/
def closeWrites (existing latest : List CollectionMint) : List CollectionMint :=
  (existing.filter (fun e => !(latest.any (fun l => mintMatches l e)))).map
    (fun e => { e with status := "closed" })

/-- The per-token loop of `refreshByCollection`: for each stored record with a
token id, re-extracts that token, upserts every fresh record, then close-
upserts every record of the `existing` snapshot not matched by this
iteration's extraction result. An extraction error aborts the refresh. -/
def refreshLoop (env : Chain) (collection : String) (existing : List CollectionMint) :
    List CollectionMint → List CollectionMint → Except String (List CollectionMint)
  | [], store => Except.ok store
  | cm :: rest, store =>
    match cm.tokenId with
    | none => refreshLoop env collection existing rest store
    | some t =>
      match extractByCollection env collection t none none with
      | Except.error e => Except.error e
      | Except.ok latest =>
        refreshLoop env collection existing rest
          ((closeWrites existing latest).foldl simulateAndUpsertCollectionMint
            (latest.foldl simulateAndUpsertCollectionMint store))

/-- The reconciliation entry point `refreshByCollection`, as a transformation
of the stored record list. -/
def refreshByCollection (env : Chain) (store : List CollectionMint) (collection : String) :
    Except String (List CollectionMint) :=
  let existing := getCollectionMints store collection
  refreshLoop env collection existing (existing.filter (fun cm => cm.tokenId.isSome)) store

/-- An allow-list proof cache entry. -/
structure ProofValue where
  merkleProof : List String
  value : String
deriving DecidableEq

/-- The environment of the proof cache: the off-chain merkle-info service,
queried with a merkle tree id and an address and returning a list of
entries. -/
structure ProofEnv where
  merkleInfo : String → String → List ProofValue

/-- The external cache store, modelled as a list of (key, value, expiry)
entries with absolute expiry instants; JSON round-tripping is modelled as the
identity. -/
def RedisStore : Type :=
  List (String × ProofValue × Nat)

/-- Reads a key from the cache store at the given instant; an expired entry
reads as absent. -/
def redisGet (store : RedisStore) (now : Nat) (k : String) : Option ProofValue :=
  match store.find? (fun e => e.1 == k) with
  | some (_, v, exp) => if now < exp then some v else none
  | none => none

/-- Writes a key with a time-to-live (the `SET ... EX ttl` call). -/
def redisSetEx (store : RedisStore) (k : String) (v : ProofValue) (ttl now : Nat) :
    RedisStore :=
  (k, v, now + ttl) :: store.filter (fun e => e.1 != k)

/-- The cache key built by `generateProofValue`: collection, stage and token
id joined by hyphens, rendering an absent token id the way a template literal
renders `undefined`. The requesting address is not part of the key. -/
def proofCacheKey (cm : CollectionMint) : String :=
  cm.collection ++ "-" ++ cm.stage ++ "-" ++ optStr cm.tokenId

/-- The merkle tree id used for the upstream fetch, taken from
`details.info`. -/
def merkleTreeIdOf (cm : CollectionMint) : String :=
  optStr (cm.details.info.bind Info.merkleTreeId)

/-- The proof cache entry point `generateProofValue`: returns the resolved
value (absent when the upstream service yields no entry), the resulting cache
store, and whether an upstream fetch was performed. On a miss, the first
upstream entry is taken and written back with a TTL of 3600 seconds; an empty
upstream answer is not cached. -/
def generateProofValue (env : ProofEnv) (store : RedisStore) (now : Nat)
    (cm : CollectionMint) (address : String) : Option ProofValue × RedisStore × Bool :=
  match redisGet store now (proofCacheKey cm) with
  | some v => (some v, store, false)
  | none =>
    match (env.merkleInfo (merkleTreeIdOf cm) address).head? with
    | some r => (some r, redisSetEx store (proofCacheKey cm) r 3600 now, true)
    | none => (none, store, true)


/-- A per-token public-sale claim used as a concrete test fixture: zero Merkle
root, cost 100, wallet cap 3, supply cap 10, no start date, end date set. -/
def claimPub : Claim1155 :=
  { total := 0, totalMax := 10, walletMax := 3, startDate := 0, endDate := 1700000000,
    storageProtocol := 1, merkleRoot := hashZero, location := "ar", tokenId := 1,
    cost := 100, paymentReceiver := "0xp", erc20 := "0xee" }

/-- A per-token allowlist claim used as a concrete test fixture: non-zero
Merkle root, cost 100. -/
def claimAllow : Claim1155 :=
  { total := 0, totalMax := 10, walletMax := 3, startDate := 0, endDate := 1700000000,
    storageProtocol := 1, merkleRoot := "0xaa", location := "ar", tokenId := 2,
    cost := 100, paymentReceiver := "0xp", erc20 := "0xee" }

/-- A concrete chain environment with one extension whose per-token claims are
`claimPub` for token 1 and `claimAllow` for token 2, flat fee 5, Merkle fee 7. -/
def envPub : Chain :=
  { getExtensions := some ["0xe1"]
    getClaimForToken := fun ext c t =>
      if ext = "0xe1" ∧ c = "0xc" then
        if t = "1" then some (1, claimPub)
        else if t = "2" then some (2, claimAllow)
        else none
      else none
    mintFee := fun _ => some 5
    mintFeeMerkle := fun _ => some 7
    getClaimV1 := fun _ _ _ => none
    getClaimV2 := fun _ _ _ => none
    fetchMetadata := fun i => if i = "2" then some "mt1" else none
    ethAddress := "0xee"
    getStatus := fun _ => ("open", none)
    decodeMint := fun _ => none
    decodeMintBatch := fun _ => none }

/-- The record extracted from `envPub` for token 1 (public). -/
def recPub : CollectionMint :=
  record1155Public envPub "0xc" "1" "0xe1" "1" claimPub 5

/-- The record extracted from `envPub` for token 2 (allowlist). -/
def recAllow : CollectionMint :=
  record1155Allowlist envPub "0xc" "2" "0xe1" "2" claimAllow 7 "mt1"

/-- A V1-shape collection-wide claim with zero Merkle root and cost 100. -/
def claimV1C1 : ClaimV1 :=
  { total := 0, totalMax := 0, walletMax := 0, startDate := 0, endDate := 0,
    storageProtocol := 1, identical := true, merkleRoot := hashZero, location := "ar",
    cost := 100, paymentReceiver := "0xp" }

/-- A chain environment where only the V1 `getClaim` shape answers (the
per-token read and the V2 shape both fail), while the extension's on-chain
`MINT_FEE` constant is 5. -/
def envC1 : Chain :=
  { getExtensions := some ["0xe1"]
    getClaimForToken := fun _ _ _ => none
    mintFee := fun _ => some 5
    mintFeeMerkle := fun _ => some 7
    getClaimV1 := fun ext c i =>
      if ext = "0xe1" ∧ c = "0xc" ∧ i = "7" then some claimV1C1 else none
    getClaimV2 := fun _ _ _ => none
    fetchMetadata := fun _ => none
    ethAddress := "0xee"
    getStatus := fun _ => ("open", none)
    decodeMint := fun _ => none
    decodeMintBatch := fun _ => none }

/-- The record extracted from `envC1` with claim-index hint 7. -/
def recC1 : CollectionMint :=
  record721Public envC1 "0xc" "5" (some "7") "0xe1" (configOfV1 envC1 claimV1C1)

/-- A V2-shape collection-wide claim with zero Merkle root and cost 100. -/
def claimV2C8 : ClaimV2 :=
  { total := 0, totalMax := 0, walletMax := 0, startDate := 0, endDate := 0,
    storageProtocol := 1, identical := true, merkleRoot := hashZero, location := "ar",
    cost := 100, paymentReceiver := "0xp", erc20 := "0xee" }

/-- A chain environment where only the V2 `getClaim` shape answers, and whose
transaction decoder recovers instance id 2 from a concrete `mint` input. -/
def envC8 : Chain :=
  { getExtensions := some ["0xe1"]
    getClaimForToken := fun _ _ _ => none
    mintFee := fun _ => some 5
    mintFeeMerkle := fun _ => some 7
    getClaimV1 := fun _ _ _ => none
    getClaimV2 := fun ext c i =>
      if ext = "0xe1" ∧ c = "0xc" ∧ i = some "2" then some claimV2C8 else none
    fetchMetadata := fun _ => none
    ethAddress := "0xee"
    getStatus := fun _ => ("open", none)
    decodeMint := fun d => if d = "0xfa2b068f00" then some "2" else none
    decodeMintBatch := fun _ => none }

/-- The record extracted from `envC8` with claim-index hint 2. -/
def recC8 : CollectionMint :=
  record721Public envC8 "0xc" "5" (some "2") "0xe1" (configOfV2 claimV2C8 5 7)

/-- A V1-shape collection-wide claim distinguishable from `claimV2C8` (cost
900). -/
def claimV1Both : ClaimV1 :=
  { total := 0, totalMax := 0, walletMax := 0, startDate := 0, endDate := 0,
    storageProtocol := 1, identical := true, merkleRoot := hashZero, location := "ar",
    cost := 900, paymentReceiver := "0xp" }

/-- A chain environment where both `getClaim` ABI shapes answer for claim
index 7, with distinct costs, to observe which one wins. -/
def envBoth : Chain :=
  { getExtensions := some ["0xe1"]
    getClaimForToken := fun _ _ _ => none
    mintFee := fun _ => some 5
    mintFeeMerkle := fun _ => some 7
    getClaimV1 := fun ext c i =>
      if ext = "0xe1" ∧ c = "0xc" ∧ i = "7" then some claimV1Both else none
    getClaimV2 := fun ext c i =>
      if ext = "0xe1" ∧ c = "0xc" ∧ i = some "7" then some claimV2C8 else none
    fetchMetadata := fun _ => none
    ethAddress := "0xee"
    getStatus := fun _ => ("open", none)
    decodeMint := fun _ => none
    decodeMintBatch := fun _ => none }

/-- A per-token public claim for token 2 of the refresh fixtures. -/
def claimRefresh2 : Claim1155 :=
  { total := 0, totalMax := 10, walletMax := 3, startDate := 0, endDate := 1700000000,
    storageProtocol := 1, merkleRoot := hashZero, location := "ar", tokenId := 2,
    cost := 200, paymentReceiver := "0xp", erc20 := "0xee" }

/-- A chain environment for the refresh fixtures: the single extension's
per-token claims are `claimPub` (instance 1) for token 1 and `claimRefresh2`
(instance 2) for token 2, and both are live. -/
def envRefresh : Chain :=
  { getExtensions := some ["0xe1"]
    getClaimForToken := fun ext c t =>
      if ext = "0xe1" ∧ c = "0xc" then
        if t = "1" then some (1, claimPub)
        else if t = "2" then some (2, claimRefresh2)
        else none
      else none
    mintFee := fun _ => some 5
    mintFeeMerkle := fun _ => some 7
    getClaimV1 := fun _ _ _ => none
    getClaimV2 := fun _ _ _ => none
    fetchMetadata := fun _ => none
    ethAddress := "0xee"
    getStatus := fun _ => ("open", none)
    decodeMint := fun _ => none
    decodeMintBatch := fun _ => none }

/-- The stored record for token 1 in the refresh fixtures, matching what
`envRefresh` currently extracts for token 1. -/
def refreshR1 : CollectionMint :=
  record1155Public envRefresh "0xc" "1" "0xe1" "1" claimPub 5

/-- The stored record for token 2 in the refresh fixtures, matching what
`envRefresh` currently extracts for token 2. -/
def refreshR2 : CollectionMint :=
  record1155Public envRefresh "0xc" "2" "0xe1" "2" claimRefresh2 5

/-- A stale stored record for token 1 whose stage carries the previous
on-chain instance id 9; `envRefresh` now reports instance id 1 for token 1. -/
def refreshR1Old : CollectionMint :=
  record1155Public envRefresh "0xc" "1" "0xe1" "9" claimPub 5

/-- A concrete proof-cache entry. -/
def pv9 : ProofValue :=
  { merkleProof := ["0xp1", "0xp2"], value := "1" }

/-- A concrete proof-cache environment: the upstream service knows `pv9` for
merkle tree `mt1` and address `0xa` only. -/
def env9 : ProofEnv :=
  { merkleInfo := fun mid addr => if mid = "mt1" ∧ addr = "0xa" then [pv9] else [] }


/-- Source of the Merkle root governing a record: the per-token claim or the
collection-wide claim configuration read for some extension. -/
def ClaimRootFor (env : Chain) (collection tokenId : String) (claimIndex : Option String)
    (extension root : String) : Prop :=
  (∃ iid claim, env.getClaimForToken extension collection tokenId = some (iid, claim) ∧
    root = claim.merkleRoot) ∨
  (∃ cfg, claimConfigFor env collection claimIndex extension = some cfg ∧
    root = cfg.merkleRoot)

/-- Source of the schedule and cap fields governing a record. -/
def ClaimScheduleFor (env : Chain) (collection tokenId : String) (claimIndex : Option String)
    (extension : String) (sd ed wm tm : Nat) : Prop :=
  (∃ iid claim, env.getClaimForToken extension collection tokenId = some (iid, claim) ∧
    sd = claim.startDate ∧ ed = claim.endDate ∧ wm = claim.walletMax ∧ tm = claim.totalMax) ∨
  (∃ cfg, claimConfigFor env collection claimIndex extension = some cfg ∧
    sd = cfg.startDate ∧ ed = cfg.endDate ∧ wm = cfg.walletMax ∧ tm = cfg.totalMax)

/-- The price of a record is fee-inclusive with respect to the fee recorded
for its sale kind: the extension's `MINT_FEE` (public) or `MINT_FEE_MERKLE`
(allowlist) on the per-token path, and the `claimConfig` fee fields on the
collection-wide path (which the V1 fallback records as zero). -/
def FeeInclusivePrice (env : Chain) (collection tokenId : String) (claimIndex : Option String)
    (r : CollectionMint) : Prop :=
  ∃ extension,
    (∃ iid claim fee,
      env.getClaimForToken extension collection tokenId = some (iid, claim) ∧
      ((claim.merkleRoot = hashZero ∧ r.kind = "public" ∧ env.mintFee extension = some fee ∧
        r.price = toString (claim.cost + fee)) ∨
       (claim.merkleRoot ≠ hashZero ∧ r.kind = "allowlist" ∧
        env.mintFeeMerkle extension = some fee ∧ r.price = toString (claim.cost + fee)))) ∨
    (∃ cfg, claimConfigFor env collection claimIndex extension = some cfg ∧
      ((cfg.merkleRoot = hashZero ∧ r.kind = "public" ∧
        r.price = toString (cfg.cost + cfg.mintFee)) ∨
       (cfg.merkleRoot ≠ hashZero ∧ r.kind = "allowlist" ∧
        r.price = toString (cfg.cost + cfg.mintFeeMerkle))))

/-- Provenance of an extracted record: some extension's ladder produced it,
either from a per-token (`getClaimForToken`) claim or from a collection-wide
(`getClaim`) claim configuration, branching on the Merkle root. -/
def ExtractedFrom (env : Chain) (collection tokenId : String) (claimIndex : Option String)
    (r : CollectionMint) : Prop :=
  ∃ extension,
    (∃ iid claim fee,
      env.getClaimForToken extension collection tokenId = some (iid, claim) ∧
      claim.merkleRoot = hashZero ∧ env.mintFee extension = some fee ∧
      r = record1155Public env collection tokenId extension (toString iid) claim fee) ∨
    (∃ iid claim fee mid,
      env.getClaimForToken extension collection tokenId = some (iid, claim) ∧
      claim.merkleRoot ≠ hashZero ∧ env.mintFeeMerkle extension = some fee ∧
      env.fetchMetadata (toString iid) = some mid ∧
      r = record1155Allowlist env collection tokenId extension (toString iid) claim fee mid) ∨
    (∃ cfg, claimConfigFor env collection claimIndex extension = some cfg ∧
      cfg.merkleRoot = hashZero ∧
      r = record721Public env collection tokenId claimIndex extension cfg) ∨
    (∃ cfg mid, claimConfigFor env collection claimIndex extension = some cfg ∧
      cfg.merkleRoot ≠ hashZero ∧ env.fetchMetadata (optStr claimIndex) = some mid ∧
      r = record721Allowlist env collection claimIndex extension cfg mid)

/-- A successful per-extension ladder returns a singleton record whose
provenance is one of the four builder cases for that extension. -/
lemma extractExt_ok (env : Chain) (c t : String) (ci : Option String) (ext : String)
    (l : List CollectionMint) (h : extractExt env c t ci ext = some (Except.ok l)) :
    ∃ r, l = [r] ∧ ExtractedFrom env c t ci r := by
  unfold extractExt at h
  cases h1155 : tryERC1155 env c t ext with
  | some recs =>
    rw [h1155] at h
    simp only [Option.some.injEq, Except.ok.injEq] at h
    subst h
    unfold tryERC1155 at h1155
    cases hg : env.getClaimForToken ext c t with
    | none => rw [hg] at h1155; exact absurd h1155 (by simp)
    | some p =>
      obtain ⟨iid, claim⟩ := p
      rw [hg] at h1155
      simp only at h1155
      split at h1155
      case isTrue hcond =>
        split at h1155
        case isTrue hroot =>
          cases hf : env.mintFee ext with
          | none => rw [hf] at h1155; exact absurd h1155 (by simp)
          | some fee =>
            rw [hf] at h1155
            simp only [Option.some.injEq] at h1155
            exact ⟨_, h1155.symm, ext,
              Or.inl ⟨iid, claim, fee, hg, hroot, hf, rfl⟩⟩
        case isFalse hroot =>
          cases hf : env.mintFeeMerkle ext with
          | none => rw [hf] at h1155; exact absurd h1155 (by simp)
          | some fee =>
            rw [hf] at h1155
            cases hm : env.fetchMetadata (toString iid) with
            | none => rw [hm] at h1155; exact absurd h1155 (by simp)
            | some mid =>
              rw [hm] at h1155
              simp only [Option.some.injEq] at h1155
              exact ⟨_, h1155.symm, ext,
                Or.inr (Or.inl ⟨iid, claim, fee, mid, hg, hroot, hf, hm, rfl⟩)⟩
      case isFalse hcond => exact absurd h1155 (by simp)
  | none =>
    rw [h1155] at h
    cases hcfg : claimConfigFor env c ci ext with
    | none => rw [hcfg] at h; exact absurd h (by simp)
    | some cfg =>
      rw [hcfg] at h
      simp only at h
      split at h
      case isTrue hroot =>
        simp only [Option.some.injEq, Except.ok.injEq] at h
        exact ⟨_, h.symm, ext, Or.inr (Or.inr (Or.inl ⟨cfg, hcfg, hroot, rfl⟩))⟩
      case isFalse hroot =>
        cases hm : env.fetchMetadata (optStr ci) with
        | none => rw [hm] at h; exact absurd h (by simp)
        | some mid =>
          rw [hm] at h
          simp only [Option.some.injEq, Except.ok.injEq] at h
          exact ⟨_, h.symm, ext, Or.inr (Or.inr (Or.inr ⟨cfg, mid, hcfg, hroot, hm, rfl⟩))⟩

/-- A successful extension loop either fell through every extension (empty
result) or returned a singleton with provenance. -/
lemma extractLoop_ok (env : Chain) (c t : String) (ci : Option String) :
    ∀ exts l, extractLoop env c t ci exts = Except.ok l →
      l = [] ∨ ∃ r, l = [r] ∧ ExtractedFrom env c t ci r := by
  intro exts
  induction exts with
  | nil =>
    intro l h
    unfold extractLoop applyStatus at h
    simp only [List.map_nil, Except.ok.injEq] at h
    exact Or.inl h.symm
  | cons e rest ih =>
    intro l h
    unfold extractLoop at h
    cases he : extractExt env c t ci e with
    | none => rw [he] at h; exact ih l h
    | some r =>
      rw [he] at h
      cases r with
      | error msg => exact absurd h (by simp)
      | ok l2 =>
        simp only [Except.ok.injEq] at h
        subst h
        exact Or.inr (extractExt_ok env c t ci e l2 he)

/-- A successful `extractByCollection` call either returns no record or a
singleton record with provenance from one extension's ladder. -/
lemma extract_ok_shape (env : Chain) (c t : String) (extension ci : Option String)
    (l : List CollectionMint) (h : extractByCollection env c t extension ci = Except.ok l) :
    l = [] ∨ ∃ r, l = [r] ∧ ExtractedFrom env c t ci r := by
  unfold extractByCollection at h
  cases hx : extensionsOf env extension with
  | none => rw [hx] at h; exact absurd h (by simp)
  | some exts => rw [hx] at h; exact extractLoop_ok env c t ci exts l h


/-- C2: every extracted record comes from a claim whose Merkle root is either
the zero hash, in which case the record is `public` and has no `allowlistId`,
or non-zero, in which case the record is `allowlist` and `allowlistId` equals
the root; the two outcomes are mutually exclusive and exhaustive. -/
theorem C2_root_kind (env : Chain) (c t : String) (extension ci : Option String)
    (l : List CollectionMint) (h : extractByCollection env c t extension ci = Except.ok l) :
    ∀ r ∈ l, ∃ ext root, ClaimRootFor env c t ci ext root ∧
      ((root = hashZero ∧ r.kind = "public" ∧ r.allowlistId = none) ∨
       (root ≠ hashZero ∧ r.kind = "allowlist" ∧ r.allowlistId = some root)) := by
  intro r hr
  rcases extract_ok_shape env c t extension ci l h with h0 | ⟨r2, hl, ext, hcase⟩
  · subst h0; exact absurd hr (by simp)
  · subst hl
    have hrr : r = r2 := List.mem_singleton.mp hr
    subst hrr
    rcases hcase with ⟨iid, claim, fee, hg, hroot, hf, hr2⟩ |
      ⟨iid, claim, fee, mid, hg, hroot, hf, hm, hr2⟩ |
      ⟨cfg, hcfg, hroot, hr2⟩ | ⟨cfg, mid, hcfg, hroot, hm, hr2⟩ <;> subst hr2
    · exact ⟨ext, claim.merkleRoot, Or.inl ⟨iid, claim, hg, rfl⟩,
        Or.inl ⟨hroot, rfl, rfl⟩⟩
    · exact ⟨ext, claim.merkleRoot, Or.inl ⟨iid, claim, hg, rfl⟩,
        Or.inr ⟨hroot, rfl, rfl⟩⟩
    · exact ⟨ext, cfg.merkleRoot, Or.inr ⟨cfg, hcfg, rfl⟩,
        Or.inl ⟨hroot, rfl, rfl⟩⟩
    · exact ⟨ext, cfg.merkleRoot, Or.inr ⟨cfg, hcfg, rfl⟩,
        Or.inr ⟨hroot, rfl, rfl⟩⟩

/-- C2 witness: the allowlist record extracted from `envPub` for token 2
instantiates the root/kind dichotomy. -/
theorem C2_witness :
    ∃ ext root, ClaimRootFor envPub "0xc" "2" none ext root ∧
      ((root = hashZero ∧ recAllow.kind = "public" ∧ recAllow.allowlistId = none) ∨
       (root ≠ hashZero ∧ recAllow.kind = "allowlist" ∧ recAllow.allowlistId = some root)) :=
  C2_root_kind envPub "0xc" "2" none none [recAllow] rfl recAllow
    (List.mem_singleton_self recAllow)

/-- C10: a successful `extractByCollection` call returns either no record or a
single record, and every returned record has status `open` and no
`statusReason`; in particular the environment's status resolver never affects
a returned record. -/
theorem C10_singleton_open (env : Chain) (c t : String) (extension ci : Option String)
    (l : List CollectionMint) (h : extractByCollection env c t extension ci = Except.ok l) :
    l = [] ∨ ∃ r, l = [r] ∧ r.status = "open" ∧ r.statusReason = none := by
  rcases extract_ok_shape env c t extension ci l h with h0 | ⟨r, hl, ext, hcase⟩
  · exact Or.inl h0
  · refine Or.inr ⟨r, hl, ?_⟩
    rcases hcase with ⟨iid, claim, fee, _, _, _, hr⟩ |
      ⟨iid, claim, fee, mid, _, _, _, _, hr⟩ |
      ⟨cfg, _, _, hr⟩ | ⟨cfg, mid, _, _, _, hr⟩ <;> subst hr <;> exact ⟨rfl, rfl⟩

/-- C10 witness: the extraction of token 1 from `envPub` returns a singleton
open record. -/
theorem C10_witness :
    ([recPub] = ([] : List CollectionMint) ∨
      ∃ r, [recPub] = [r] ∧ r.status = "open" ∧ r.statusReason = none) :=
  C10_singleton_open envPub "0xc" "1" none none [recPub] rfl


/-- C7: every extracted record normalizes a zero on-chain start/end date to an
absent timestamp and a non-zero one to the identical timestamp, and a zero
wallet/total cap to an absent cap and a non-zero one to its decimal string. -/
theorem C7_normalization (env : Chain) (c t : String) (extension ci : Option String)
    (l : List CollectionMint) (h : extractByCollection env c t extension ci = Except.ok l) :
    ∀ r ∈ l, ∃ ext sd ed wm tm, ClaimScheduleFor env c t ci ext sd ed wm tm ∧
      r.startTime = (if sd ≠ 0 then some sd else none) ∧
      r.endTime = (if ed ≠ 0 then some ed else none) ∧
      r.maxMintsPerWallet = (if 0 < wm then some (toString wm) else none) ∧
      r.maxSupply = (if 0 < tm then some (toString tm) else none) := by
  intro r hr
  rcases extract_ok_shape env c t extension ci l h with h0 | ⟨r2, hl, ext, hcase⟩
  · subst h0; exact absurd hr (by simp)
  · subst hl
    have hrr : r = r2 := List.mem_singleton.mp hr
    subst hrr
    rcases hcase with ⟨iid, claim, fee, hg, hroot, hf, hr2⟩ |
      ⟨iid, claim, fee, mid, hg, hroot, hf, hm, hr2⟩ |
      ⟨cfg, hcfg, hroot, hr2⟩ | ⟨cfg, mid, hcfg, hroot, hm, hr2⟩ <;> subst hr2
    · exact ⟨ext, claim.startDate, claim.endDate, claim.walletMax, claim.totalMax,
        Or.inl ⟨iid, claim, hg, rfl, rfl, rfl, rfl⟩, rfl, rfl, rfl, rfl⟩
    · exact ⟨ext, claim.startDate, claim.endDate, claim.walletMax, claim.totalMax,
        Or.inl ⟨iid, claim, hg, rfl, rfl, rfl, rfl⟩, rfl, rfl, rfl, rfl⟩
    · exact ⟨ext, cfg.startDate, cfg.endDate, cfg.walletMax, cfg.totalMax,
        Or.inr ⟨cfg, hcfg, rfl, rfl, rfl, rfl⟩, rfl, rfl, rfl, rfl⟩
    · exact ⟨ext, cfg.startDate, cfg.endDate, cfg.walletMax, cfg.totalMax,
        Or.inr ⟨cfg, hcfg, rfl, rfl, rfl, rfl⟩, rfl, rfl, rfl, rfl⟩

/-- C7 witness: the public record of `envPub` (zero start date, non-zero end
date, caps 3 and 10) instantiates the normalization property. -/
theorem C7_witness :
    ∃ ext sd ed wm tm, ClaimScheduleFor envPub "0xc" "1" none ext sd ed wm tm ∧
      recPub.startTime = (if sd ≠ 0 then some sd else none) ∧
      recPub.endTime = (if ed ≠ 0 then some ed else none) ∧
      recPub.maxMintsPerWallet = (if 0 < wm then some (toString wm) else none) ∧
      recPub.maxSupply = (if 0 < tm then some (toString tm) else none) :=
  C7_normalization envPub "0xc" "1" none none [recPub] rfl recPub
    (List.mem_singleton_self recPub)


/-- C1 (amended): every extracted record's price equals the claim's on-chain
cost plus the fee recorded for the sale kind; on the V1-only fallback both
recorded fees are zero, so the price can equal the bare cost. -/
theorem C1_amended (env : Chain) (c t : String) (extension ci : Option String)
    (l : List CollectionMint) (h : extractByCollection env c t extension ci = Except.ok l) :
    ∀ r ∈ l, FeeInclusivePrice env c t ci r := by
  intro r hr
  rcases extract_ok_shape env c t extension ci l h with h0 | ⟨r2, hl, ext, hcase⟩
  · subst h0; exact absurd hr (by simp)
  · subst hl
    have hrr : r = r2 := List.mem_singleton.mp hr
    subst hrr
    rcases hcase with ⟨iid, claim, fee, hg, hroot, hf, hr2⟩ |
      ⟨iid, claim, fee, mid, hg, hroot, hf, hm, hr2⟩ |
      ⟨cfg, hcfg, hroot, hr2⟩ | ⟨cfg, mid, hcfg, hroot, hm, hr2⟩ <;> subst hr2
    · exact ⟨ext, Or.inl ⟨iid, claim, fee, hg, Or.inl ⟨hroot, rfl, hf, rfl⟩⟩⟩
    · exact ⟨ext, Or.inl ⟨iid, claim, fee, hg, Or.inr ⟨hroot, rfl, hf, rfl⟩⟩⟩
    · exact ⟨ext, Or.inr ⟨cfg, hcfg, Or.inl ⟨hroot, rfl, rfl⟩⟩⟩
    · exact ⟨ext, Or.inr ⟨cfg, hcfg, Or.inr ⟨hroot, rfl, rfl⟩⟩⟩

/-- C1 witness: the public record of `envPub` (cost 100, flat fee 5) has the
fee-inclusive price 105. -/
theorem C1_witness :
    FeeInclusivePrice envPub "0xc" "1" none recPub ∧ recPub.price = "105" :=
  ⟨C1_amended envPub "0xc" "1" none none [recPub] rfl recPub
    (List.mem_singleton_self recPub), rfl⟩

/-- C1 counterexample: when only the V1 `getClaim` shape answers, the emitted
record's price equals the bare on-chain cost (the V1 fallback records a zero
fee), even though the extension's on-chain `MINT_FEE` constant is 5, so the
price is not `cost + MINT_FEE` and is equal to the bare cost. -/
theorem C1_counterexample :
    extractByCollection envC1 "0xc" "5" none (some "7") = Except.ok [recC1] ∧
    recC1.kind = "public" ∧
    recC1.price = toString claimV1C1.cost ∧
    envC1.mintFee "0xe1" = some 5 ∧
    recC1.price ≠ toString (claimV1C1.cost + 5) :=
  ⟨rfl, rfl, rfl, rfl, by decide⟩

/-- C5: in the collection-wide fallback, the V1 shape contributes only when a
claim-index hint was supplied (with no hint the outcome is exactly the V2
attempt's), a successful V2 attempt always wins, and the V1 result is used
exactly when the V2 attempt fails and a truthy hint selected the V1 read. -/
theorem C5_ladder (env : Chain) (collection : String) (ci : Option String) (ext : String) :
    (claimConfigFor env collection none ext = v2Attempt env collection none ext) ∧
    (∀ cfg, v2Attempt env collection ci ext = some cfg →
      claimConfigFor env collection ci ext = some cfg) ∧
    (∀ i c1, ci = some i → i ≠ "" → env.getClaimV1 ext collection i = some c1 →
      v2Attempt env collection ci ext = none →
      claimConfigFor env collection ci ext = some (configOfV1 env c1)) := by
  refine ⟨?_, ?_, ?_⟩
  · cases hv : v2Attempt env collection none ext with
    | some cfg => unfold claimConfigFor; rw [hv]
    | none => unfold claimConfigFor; rw [hv]; rfl
  · intro cfg hv
    unfold claimConfigFor
    rw [hv]
  · intro i c1 hci hne h1 hv
    subst hci
    unfold claimConfigFor
    rw [hv]
    show (if i = "" then none
      else Option.map (configOfV1 env) (env.getClaimV1 ext collection i)) =
        some (configOfV1 env c1)
    rw [if_neg hne, h1]
    rfl

/-- C5 witness: when both shapes answer for claim index 7, the configuration
kept is the one built from the V2 result. -/
theorem C5_witness :
    claimConfigFor envBoth "0xc" (some "7") "0xe1" = some (configOfV2 claimV2C8 5 7) :=
  (C5_ladder envBoth "0xc" (some "7") "0xe1").2.1 (configOfV2 claimV2C8 5 7) rfl

/-- C6: a transaction whose input starts with the `mint` selector and whose
decoded instance id is `i` extracts exactly what `extractByCollection` yields
with the transaction target as extension hint and `i` as claim-index hint; a
transaction matching neither selector extracts nothing. -/
theorem C6_tx_delegation (env : Chain) (collection tokenId : String) (tx : Transaction) :
    (∀ i, strStartsWith tx.data "0xfa2b068f" = true → env.decodeMint tx.data = some i →
      extractByTx env collection tokenId tx =
        extractByCollection env collection tokenId (some tx.toAddr) (some i)) ∧
    (strStartsWith tx.data "0xfa2b068f" = false →
      strStartsWith tx.data "0x26c858a4" = false →
      extractByTx env collection tokenId tx = Except.ok []) := by
  constructor
  · intro i hsel hdec
    unfold extractByTx
    rw [if_pos (Or.inl hsel), if_pos hsel, hdec]
  · intro h1 h2
    unfold extractByTx
    rw [if_neg]
    simp [h1, h2]

/-- C6 witness: a concrete `mint`-selector transaction delegating to the
collection-wide extraction with claim-index hint 2. -/
theorem C6_witness :
    extractByTx envC8 "0xc" "5" { toAddr := "0xe1", data := "0xfa2b068f00" } =
      extractByCollection envC8 "0xc" "5" (some "0xe1") (some "2") :=
  (C6_tx_delegation envC8 "0xc" "5" { toAddr := "0xe1", data := "0xfa2b068f00" }).1 "2"
    (by decide) rfl

/-- C8 (bug evaluation): with the per-token read failing and the V2
collection-wide read answering a zero-root claim, the emitted record comes
from a collection-wide configuration and nevertheless carries the caller's
token id. -/
theorem C8_tokenId_present :
    extractByCollection envC8 "0xc" "5" none (some "2") = Except.ok [recC8] ∧
    envC8.getClaimForToken "0xe1" "0xc" "5" = none ∧
    recC8.tokenId = some "5" :=
  ⟨rfl, rfl, rfl⟩

/-- C3 (bug evaluation): with stored open records for tokens 1 and 2, both of
which are still returned by their own fresh extraction, one refresh pass still
close-upserts the token-1 record (during token 2's iteration), leaving it
closed. -/
theorem C3_live_record_closed :
    extractByCollection envRefresh "0xc" "1" none none = Except.ok [refreshR1] ∧
    extractByCollection envRefresh "0xc" "2" none none = Except.ok [refreshR2] ∧
    refreshR1.status = "open" ∧ refreshR2.status = "open" ∧
    refreshByCollection envRefresh [refreshR1, refreshR2] "0xc" =
      Except.ok [{ refreshR1 with status := "closed" }, refreshR2] :=
  ⟨rfl, rfl, rfl, rfl, rfl⟩

/-- C4 (bug evaluation): with an unchanged chain environment, running the
refresh twice from a store holding a stale token-1 record and a live token-2
record does not reproduce the state of the first run: the second run leaves
the live token-2 record closed. -/
theorem C4_not_idempotent :
    refreshByCollection envRefresh [refreshR1Old, refreshR2] "0xc" =
      Except.ok [{ refreshR1Old with status := "closed" }, refreshR2, refreshR1] ∧
    refreshByCollection envRefresh
        [{ refreshR1Old with status := "closed" }, refreshR2, refreshR1] "0xc" =
      Except.ok [{ refreshR1Old with status := "closed" },
        { refreshR2 with status := "closed" }, refreshR1] ∧
    ([{ refreshR1Old with status := "closed" }, { refreshR2 with status := "closed" },
        refreshR1] ≠
      [{ refreshR1Old with status := "closed" }, refreshR2, refreshR1]) :=
  ⟨rfl, rfl, by decide⟩

/-- C9: a fetch-and-cache call writes the value with a TTL of 3600 seconds; a
second call for the same record within that window returns the cached value
with no upstream fetch, for any requesting address (the key does not include
the address); after expiry a fresh upstream fetch occurs; and a miss whose
upstream fetch yields no entry is returned absent with the store unchanged. -/
theorem C9_proof_cache (env : ProofEnv) (store : RedisStore) (now now2 : Nat)
    (cm : CollectionMint) (addr addr2 : String) (v : ProofValue) (s1 : RedisStore) :
    (generateProofValue env store now cm addr = (some v, s1, true) →
      s1 = redisSetEx store (proofCacheKey cm) v 3600 now) ∧
    (generateProofValue env store now cm addr = (some v, s1, true) → now2 < now + 3600 →
      generateProofValue env s1 now2 cm addr2 = (some v, s1, false)) ∧
    (generateProofValue env store now cm addr = (some v, s1, true) → now + 3600 ≤ now2 →
      (generateProofValue env s1 now2 cm addr2).2.2 = true) ∧
    (redisGet store now (proofCacheKey cm) = none →
      env.merkleInfo (merkleTreeIdOf cm) addr = [] →
      generateProofValue env store now cm addr = (none, store, true)) := by
  have key_cases :
      generateProofValue env store now cm addr = (some v, s1, true) →
      redisGet store now (proofCacheKey cm) = none ∧
      (env.merkleInfo (merkleTreeIdOf cm) addr).head? = some v ∧
      s1 = redisSetEx store (proofCacheKey cm) v 3600 now := by
    intro h
    unfold generateProofValue at h
    cases hg : redisGet store now (proofCacheKey cm) with
    | some w => rw [hg] at h; simp at h
    | none =>
      rw [hg] at h
      cases hh : (env.merkleInfo (merkleTreeIdOf cm) addr).head? with
      | none => rw [hh] at h; simp at h
      | some r =>
        rw [hh] at h
        simp only [Prod.mk.injEq, Option.some.injEq] at h
        obtain ⟨h1, h2, -⟩ := h
        subst h1
        exact ⟨rfl, rfl, h2.symm⟩
  refine ⟨fun h => (key_cases h).2.2, ?_, ?_, ?_⟩
  · intro h hlt
    obtain ⟨hg, hh, hs⟩ := key_cases h
    subst hs
    unfold generateProofValue redisGet redisSetEx
    simp only [List.find?_cons, beq_self_eq_true]
    rw [if_pos hlt]
  · intro h hge
    obtain ⟨hg, hh, hs⟩ := key_cases h
    subst hs
    unfold generateProofValue redisGet redisSetEx
    simp only [List.find?_cons, beq_self_eq_true]
    rw [if_neg (by omega)]
    cases (env.merkleInfo (merkleTreeIdOf cm) addr2).head? <;> rfl
  · intro hg hemp
    unfold generateProofValue
    rw [hg, hemp]
    rfl

/-- C9 witness: after a concrete fetch-and-cache call at time 0, a second call
at time 5 for a different address returns the cached entry with no fetch. -/
theorem C9_witness :
    generateProofValue env9 [(proofCacheKey recAllow, pv9, 3600)] 5 recAllow "0xb" =
      (some pv9, [(proofCacheKey recAllow, pv9, 3600)], false) :=
  (C9_proof_cache env9 [] 0 5 recAllow "0xa" "0xb" pv9
    [(proofCacheKey recAllow, pv9, 3600)]).2.1 rfl (by decide)

end Manifold
